import Mathlib

/-!
Verification of the JSON (de)serialization behaviour of the `Native` record
(`native.go`, package `openrtb`), a shallow embedding of Go's `encoding/json`
marshal/unmarshal semantics specialised to this struct.

Modelling choices, each mirroring the Go source and Go's `encoding/json`:
* JSON values are an inductive tree (`Json`); numbers carry `Int` (all the
  struct's numeric fields are integer-typed).
* A Go slice field is `Option (List _)`: `none` is the nil slice, `some l` a
  non-nil slice.  Marshal emits `null` for a nil slice and omits an
  `omitempty` slice of length 0 (nil or empty); unmarshal of `null` into a
  slice yields nil.
* `json.RawMessage` (`Ext`) is `Option Json`: `none` is the empty/nil raw
  message (omitted under `omitempty`); `some v` is a raw JSON value, emitted
  verbatim on marshal and captured verbatim on unmarshal.
* Unmarshal walks the object's key/value pairs in order, overwriting on
  duplicate keys, ignoring unknown keys, treating a JSON `null` value as a
  no-op for scalar fields, and failing on a type mismatch or an integer that
  overflows the field's machine width (`int8` for `AURLSupport`,
  `DURLSupport`, `Privacy`; `int64` for `PlcmtCnt`, `Seq`).
* Go's `encoding/json` has no notion of required fields: a missing key simply
  leaves the field at its zero value.
-/

namespace OpenRTB

/-- A JSON value.  Numbers are integers: every numeric field of the `Native`
struct is integer-typed, so integer payloads are all this development needs. -/
inductive Json where
  | null : Json
  | bool : Bool → Json
  | num : Int → Json
  | str : String → Json
  | arr : List Json → Json
  | obj : List (String × Json) → Json
  deriving Repr

/-- The keys of a JSON object, in emission order (empty for non-objects). -/
def Json.keys : Json → List String
  | .obj kvs => kvs.map Prod.fst
  | _ => []

/-- Look up the first binding of key `k` in a JSON object. -/
def Json.objGet (j : Json) (k : String) : Option Json :=
  match j with
  | .obj kvs => kvs.lookup k
  | _ => none

/-- Modelled from the spec: the `Asset` sub-record (package `native/request`,
not under `src/`).  The spec describes it only as "a sub-record describing one
renderable component of a native ad" and its worked example uses the payload
`{"id":1}`, so the model carries the integer `id` (required, hence no
omit-when-empty marker on its key). -/
structure Asset where
  ID : Int
  deriving Repr, DecidableEq

def Asset.zero : Asset := ⟨0⟩

/-- Modelled from the spec: the `EventTracker` sub-record (package
`native/request`, not under `src/`).  The spec describes it only as "a
sub-record describing a mechanism for reporting ad-related events", so the
model carries a single integer `event` code. -/
structure EventTracker where
  Event : Int
  deriving Repr, DecidableEq

def EventTracker.zero : EventTracker := ⟨0⟩

/-- The `Native` struct of `native.go`, field for field and in declaration
order.  Slice-typed fields (`API`, `BAttr`, `Assets`, `EventTrackers`) are
`Option (List _)` (`none` = Go's nil slice); `Ext` (`json.RawMessage`) is
`Option Json`.  The enumerated fields (`Layout`, `AdUnit`, `Context`,
`ContextSubType`, `PlcmtType` and the elements of `API`/`BAttr`) have their
integer newtypes declared outside `src/`, modelled from the spec as an open
integer domain (`Int`). -/
structure Native where
  Request : String
  Ver : String
  API : Option (List Int)
  BAttr : Option (List Int)
  Ext : Option Json
  Layout : Int
  AdUnit : Int
  Context : Int
  ContextSubType : Int
  PlcmtType : Int
  PlcmtCnt : Int
  Seq : Int
  Assets : Option (List Asset)
  AURLSupport : Int
  DURLSupport : Int
  EventTrackers : Option (List EventTracker)
  Privacy : Int
  deriving Repr

/-- The Go zero value of `Native`: empty strings, nil slices, zero integers. -/
def Native.zero : Native :=
  ⟨"", "", none, none, none, 0, 0, 0, 0, 0, 0, 0, none, 0, 0, none, 0⟩

/-! ### Marshalling (Go `json.Marshal` on the tagged struct) -/

/-- Segment for a `string` field tagged `omitempty`: omitted when empty. -/
def encStr (k : String) (s : String) : List (String × Json) :=
  if s = "" then [] else [(k, Json.str s)]

/-- Segment for an integer field tagged `omitempty`: omitted when zero. -/
def encInt (k : String) (i : Int) : List (String × Json) :=
  if i = 0 then [] else [(k, Json.num i)]

/-- Segment for a slice field tagged `omitempty`: omitted when the slice has
length 0 (nil or empty), else emitted as an array of encoded elements. -/
def encList (k : String) (f : α → Json) : Option (List α) → List (String × Json)
  | none => []
  | some [] => []
  | some (x :: xs) => [(k, Json.arr ((x :: xs).map f))]

/-- Segment for the `json.RawMessage` field tagged `omitempty`: omitted when
nil/empty, else the raw value is spliced in verbatim. -/
def encExt (k : String) : Option Json → List (String × Json)
  | none => []
  | some v => [(k, v)]

def Asset.enc (a : Asset) : Json := Json.obj [("id", Json.num a.ID)]

def EventTracker.enc (e : EventTracker) : Json :=
  Json.obj [("event", Json.num e.Event)]

/-- The required `assets` field has no `omitempty`: a nil slice marshals to
JSON `null`, a non-nil slice to an array. -/
def encAssets : Option (List Asset) → Json
  | none => Json.null
  | some l => Json.arr (l.map Asset.enc)

/-- `json.Marshal` of a `Native`: keys in struct declaration order; `request`
and `assets` always present (no `omitempty`), everything else omitted at its
zero value. -/
def encodeNative (n : Native) : Json :=
  Json.obj
    ([("request", Json.str n.Request)]
      ++ encStr "ver" n.Ver
      ++ encList "api" Json.num n.API
      ++ encList "battr" Json.num n.BAttr
      ++ encExt "ext" n.Ext
      ++ encInt "layout" n.Layout
      ++ encInt "adunit" n.AdUnit
      ++ encInt "context" n.Context
      ++ encInt "contextsubtype" n.ContextSubType
      ++ encInt "plcmttype" n.PlcmtType
      ++ encInt "plcmtcnt" n.PlcmtCnt
      ++ encInt "seq" n.Seq
      ++ [("assets", encAssets n.Assets)]
      ++ encInt "aurlsupport" n.AURLSupport
      ++ encInt "durlsupport" n.DURLSupport
      ++ encList "eventtrackers" EventTracker.enc n.EventTrackers
      ++ encInt "privacy" n.Privacy)

/-! ### Unmarshalling (Go `json.Unmarshal` into the tagged struct) -/

/-- Fold a state through an object's key/value pairs in order: Go's
`json.Unmarshal` processes members sequentially (later duplicates overwrite),
stopping our model at the first ill-typed value (Go records the error). -/
def decFields (apply : σ → String → Json → Option σ) : σ → List (String × Json) → Option σ
  | s, [] => some s
  | s, (k, v) :: rest =>
    match apply s k v with
    | none => none
    | some s' => decFields apply s' rest

/-- Decode a JSON value into a fresh integer slot of a slice: a number is
taken as-is, `null` is a no-op leaving the zero value, anything else is a
type mismatch. -/
def decInt : Json → Option Int
  | .num i => some i
  | .null => some 0
  | _ => none

/-- Decode the elements of a JSON array, failing if any element fails. -/
def decList (f : Json → Option α) : List Json → Option (List α)
  | [] => some []
  | x :: xs =>
    match f x with
    | none => none
    | some a => (decList f xs).map (a :: ·)

def applyAssetField (a : Asset) (k : String) (v : Json) : Option Asset :=
  if k = "id" then
    match v with
    | .num i => some { a with ID := i }
    | .null => some a
    | _ => none
  else some a

/-- Decode one `Asset`: an object is folded field by field from the zero
value, `null` is a no-op leaving the zero value, anything else mismatches. -/
def decodeAsset : Json → Option Asset
  | .obj kvs => decFields applyAssetField Asset.zero kvs
  | .null => some Asset.zero
  | _ => none

def applyEventTrackerField (e : EventTracker) (k : String) (v : Json) :
    Option EventTracker :=
  if k = "event" then
    match v with
    | .num i => some { e with Event := i }
    | .null => some e
    | _ => none
  else some e

def decodeEventTracker : Json → Option EventTracker
  | .obj kvs => decFields applyEventTrackerField EventTracker.zero kvs
  | .null => some EventTracker.zero
  | _ => none

def int8Min : Int := -128
def int8Max : Int := 127
def int64Min : Int := -9223372036854775808
def int64Max : Int := 9223372036854775807

/-- Apply one object member to a partially decoded `Native`, mirroring
`json.Unmarshal` key dispatch over the struct tags: unknown keys are ignored,
`null` values are no-ops (except for slices, which they set to nil, and the
raw `ext`, whose custom unmarshaler captures any value verbatim), ill-typed
values and machine-width overflows fail. -/
def applyField (n : Native) (k : String) (v : Json) : Option Native :=
  if k = "request" then
    match v with
    | .str s => some { n with Request := s }
    | .null => some n
    | _ => none
  else if k = "ver" then
    match v with
    | .str s => some { n with Ver := s }
    | .null => some n
    | _ => none
  else if k = "api" then
    match v with
    | .arr xs => (decList decInt xs).map fun l => { n with API := some l }
    | .null => some { n with API := none }
    | _ => none
  else if k = "battr" then
    match v with
    | .arr xs => (decList decInt xs).map fun l => { n with BAttr := some l }
    | .null => some { n with BAttr := none }
    | _ => none
  else if k = "ext" then
    some { n with Ext := some v }
  else if k = "layout" then
    match v with
    | .num i => some { n with Layout := i }
    | .null => some n
    | _ => none
  else if k = "adunit" then
    match v with
    | .num i => some { n with AdUnit := i }
    | .null => some n
    | _ => none
  else if k = "context" then
    match v with
    | .num i => some { n with Context := i }
    | .null => some n
    | _ => none
  else if k = "contextsubtype" then
    match v with
    | .num i => some { n with ContextSubType := i }
    | .null => some n
    | _ => none
  else if k = "plcmttype" then
    match v with
    | .num i => some { n with PlcmtType := i }
    | .null => some n
    | _ => none
  else if k = "plcmtcnt" then
    match v with
    | .num i =>
      if int64Min ≤ i ∧ i ≤ int64Max then some { n with PlcmtCnt := i } else none
    | .null => some n
    | _ => none
  else if k = "seq" then
    match v with
    | .num i =>
      if int64Min ≤ i ∧ i ≤ int64Max then some { n with Seq := i } else none
    | .null => some n
    | _ => none
  else if k = "assets" then
    match v with
    | .arr xs => (decList decodeAsset xs).map fun l => { n with Assets := some l }
    | .null => some { n with Assets := none }
    | _ => none
  else if k = "aurlsupport" then
    match v with
    | .num i =>
      if int8Min ≤ i ∧ i ≤ int8Max then some { n with AURLSupport := i } else none
    | .null => some n
    | _ => none
  else if k = "durlsupport" then
    match v with
    | .num i =>
      if int8Min ≤ i ∧ i ≤ int8Max then some { n with DURLSupport := i } else none
    | .null => some n
    | _ => none
  else if k = "eventtrackers" then
    match v with
    | .arr xs =>
      (decList decodeEventTracker xs).map fun l => { n with EventTrackers := some l }
    | .null => some { n with EventTrackers := none }
    | _ => none
  else if k = "privacy" then
    match v with
    | .num i =>
      if int8Min ≤ i ∧ i ≤ int8Max then some { n with Privacy := i } else none
    | .null => some n
    | _ => none
  else some n

/-- `json.Unmarshal` of a `Native`: a JSON object is folded member by member
starting from the zero value; a top-level `null` is a no-op leaving the zero
value; any other top-level shape is a type mismatch. -/
def decodeNative : Json → Option Native
  | .obj kvs => decFields applyField Native.zero kvs
  | .null => some Native.zero
  | _ => none

/-- The JSON keys the `Native` struct's tags recognise. -/
def nativeKeys : List String :=
  ["request", "ver", "api", "battr", "ext", "layout", "adunit", "context",
    "contextsubtype", "plcmttype", "plcmtcnt", "seq", "assets", "aurlsupport",
    "durlsupport", "eventtrackers", "privacy"]

/-! ### Exactly when decoding succeeds: per-member well-typedness -/

/-- A value acceptable for an integer-typed scalar field with no width bound
in the model: a number or a `null` no-op. -/
def scalarOK : Json → Bool
  | .num _ => true
  | .null => true
  | _ => false

/-- A value acceptable for a string field. -/
def strOK : Json → Bool
  | .str _ => true
  | .null => true
  | _ => false

/-- A value acceptable for an `int8` field: an in-range number or `null`. -/
def i8OK : Json → Bool
  | .num i => decide (int8Min ≤ i ∧ i ≤ int8Max)
  | .null => true
  | _ => false

/-- A value acceptable for an `int64` field: an in-range number or `null`. -/
def i64OK : Json → Bool
  | .num i => decide (int64Min ≤ i ∧ i ≤ int64Max)
  | .null => true
  | _ => false

/-- A value acceptable for an integer-slice field (`api`, `battr`). -/
def intArrOK : Json → Bool
  | .arr xs => xs.all scalarOK
  | .null => true
  | _ => false

def assetFieldOK (k : String) (v : Json) : Bool :=
  if k = "id" then scalarOK v else true

/-- A value acceptable as one `Asset` element. -/
def assetOK : Json → Bool
  | .obj kvs => kvs.all fun p => assetFieldOK p.1 p.2
  | .null => true
  | _ => false

/-- A value acceptable for the `assets` field. -/
def assetsArrOK : Json → Bool
  | .arr xs => xs.all assetOK
  | .null => true
  | _ => false

def etFieldOK (k : String) (v : Json) : Bool :=
  if k = "event" then scalarOK v else true

/-- A value acceptable as one `EventTracker` element. -/
def etOK : Json → Bool
  | .obj kvs => kvs.all fun p => etFieldOK p.1 p.2
  | .null => true
  | _ => false

/-- A value acceptable for the `eventtrackers` field. -/
def etArrOK : Json → Bool
  | .arr xs => xs.all etOK
  | .null => true
  | _ => false

/-- One object member is well-typed for the `Native` struct: the value fits
the field its key selects; unknown keys impose no constraint. -/
def fieldTypeOK (k : String) (v : Json) : Bool :=
  if k = "request" then strOK v
  else if k = "ver" then strOK v
  else if k = "api" then intArrOK v
  else if k = "battr" then intArrOK v
  else if k = "ext" then true
  else if k = "layout" then scalarOK v
  else if k = "adunit" then scalarOK v
  else if k = "context" then scalarOK v
  else if k = "contextsubtype" then scalarOK v
  else if k = "plcmttype" then scalarOK v
  else if k = "plcmtcnt" then i64OK v
  else if k = "seq" then i64OK v
  else if k = "assets" then assetsArrOK v
  else if k = "aurlsupport" then i8OK v
  else if k = "durlsupport" then i8OK v
  else if k = "eventtrackers" then etArrOK v
  else if k = "privacy" then i8OK v
  else true


end OpenRTB

namespace OpenRTB

/-! ### Generic facts about the decoding fold and the encoders -/

theorem decFields_append (apply : σ → String → Json → Option σ)
    (l₁ l₂ : List (String × Json)) :
    ∀ s, decFields apply s (l₁ ++ l₂) =
      (decFields apply s l₁).bind fun s' => decFields apply s' l₂ := by
  induction l₁ with
  | nil => intro s; simp [decFields]
  | cons hd tl ih =>
    intro s
    obtain ⟨k, v⟩ := hd
    simp only [List.cons_append, decFields]
    cases apply s k v with
    | none => simp
    | some s' => simp [ih]

theorem decFields_skip (apply : σ → String → Json → Option σ) (k : String) (v : Json)
    (hskip : ∀ s, apply s k v = some s) :
    ∀ (l₁ l₂ : List (String × Json)) (s : σ),
      decFields apply s (l₁ ++ (k, v) :: l₂) = decFields apply s (l₁ ++ l₂) := by
  intro l₁
  induction l₁ with
  | nil => intro l₂ s; simp [decFields, hskip s]
  | cons hd tl ih =>
    intro l₂ s
    obtain ⟨k', v'⟩ := hd
    simp only [List.cons_append, decFields]
    cases apply s k' v' with
    | none => rfl
    | some s' => exact ih l₂ s'

theorem decFields_isSome (apply : σ → String → Json → Option σ)
    (ok : String → Json → Bool)
    (hok : ∀ s k v, (apply s k v).isSome = ok k v) :
    ∀ (kvs : List (String × Json)) (s : σ),
      (decFields apply s kvs).isSome = kvs.all fun p => ok p.1 p.2 := by
  intro kvs
  induction kvs with
  | nil => intro s; simp [decFields]
  | cons hd tl ih =>
    intro s
    obtain ⟨k, v⟩ := hd
    simp only [decFields, List.all_cons]
    cases h : apply s k v with
    | none =>
      have : ok k v = false := by rw [← hok s k v, h]; rfl
      simp [this]
    | some s' =>
      have : ok k v = true := by rw [← hok s k v, h]; rfl
      simp [this, ih s']

theorem decList_isSome (f : Json → Option α) :
    ∀ xs : List Json, (decList f xs).isSome = xs.all fun x => (f x).isSome := by
  intro xs
  induction xs with
  | nil => simp [decList]
  | cons x xs ih =>
    simp only [decList, List.all_cons]
    cases h : f x with
    | none => simp [h]
    | some a => simp [h, ih]

theorem decList_map_of (f : Json → Option α) (g : α → Json)
    (hfg : ∀ a, f (g a) = some a) :
    ∀ l : List α, decList f (l.map g) = some l := by
  intro l
  induction l with
  | nil => rfl
  | cons a l ih => simp [decList, hfg a, ih]

theorem mem_keys_encStr {x k s} :
    x ∈ (encStr k s).map Prod.fst ↔ x = k ∧ s ≠ "" := by
  unfold encStr
  split
  · simp [*]
  · simp [*]

theorem mem_keys_encInt {x k} {i : Int} :
    x ∈ (encInt k i).map Prod.fst ↔ x = k ∧ i ≠ 0 := by
  unfold encInt
  split
  · simp [*]
  · simp [*]

theorem mem_keys_encExt {x k} {o : Option Json} :
    x ∈ (encExt k o).map Prod.fst ↔ x = k ∧ o ≠ none := by
  cases o <;> simp [encExt]

theorem mem_keys_encList {α} {x k} {f : α → Json} {o : Option (List α)} :
    x ∈ (encList k f o).map Prod.fst ↔ x = k ∧ o ≠ none ∧ o ≠ some [] := by
  match o with
  | none => simp [encList]
  | some [] => simp [encList]
  | some (a :: l) => simp [encList]

end OpenRTB

namespace OpenRTB

/-! ### Decoding each marshalled segment recovers the field -/

theorem decInt_num : ∀ i : Int, decInt (Json.num i) = some i := fun _ => rfl

theorem decodeAsset_enc : ∀ a : Asset, decodeAsset (Asset.enc a) = some a :=
  fun _ => rfl

theorem decodeEventTracker_enc :
    ∀ e : EventTracker, decodeEventTracker (EventTracker.enc e) = some e :=
  fun _ => rfl

theorem applyField_api (m : Native) (xs : List Json) :
    applyField m "api" (Json.arr xs) =
      (decList decInt xs).map fun l => { m with API := some l } := rfl

theorem applyField_battr (m : Native) (xs : List Json) :
    applyField m "battr" (Json.arr xs) =
      (decList decInt xs).map fun l => { m with BAttr := some l } := rfl

theorem applyField_eventtrackers (m : Native) (xs : List Json) :
    applyField m "eventtrackers" (Json.arr xs) =
      (decList decodeEventTracker xs).map fun l => { m with EventTrackers := some l } := rfl

theorem applyField_assets_arr (m : Native) (xs : List Json) :
    applyField m "assets" (Json.arr xs) =
      (decList decodeAsset xs).map fun l => { m with Assets := some l } := rfl

theorem applyField_plcmtcnt (m : Native) (i : Int)
    (h1 : int64Min ≤ i) (h2 : i ≤ int64Max) :
    applyField m "plcmtcnt" (Json.num i) = some { m with PlcmtCnt := i } := by
  have e : applyField m "plcmtcnt" (Json.num i) =
      if int64Min ≤ i ∧ i ≤ int64Max then some { m with PlcmtCnt := i } else none := rfl
  rw [e, if_pos ⟨h1, h2⟩]

theorem applyField_seq (m : Native) (i : Int)
    (h1 : int64Min ≤ i) (h2 : i ≤ int64Max) :
    applyField m "seq" (Json.num i) = some { m with Seq := i } := by
  have e : applyField m "seq" (Json.num i) =
      if int64Min ≤ i ∧ i ≤ int64Max then some { m with Seq := i } else none := rfl
  rw [e, if_pos ⟨h1, h2⟩]

theorem applyField_aurlsupport (m : Native) (i : Int)
    (h1 : int8Min ≤ i) (h2 : i ≤ int8Max) :
    applyField m "aurlsupport" (Json.num i) = some { m with AURLSupport := i } := by
  have e : applyField m "aurlsupport" (Json.num i) =
      if int8Min ≤ i ∧ i ≤ int8Max then some { m with AURLSupport := i } else none := rfl
  rw [e, if_pos ⟨h1, h2⟩]

theorem applyField_durlsupport (m : Native) (i : Int)
    (h1 : int8Min ≤ i) (h2 : i ≤ int8Max) :
    applyField m "durlsupport" (Json.num i) = some { m with DURLSupport := i } := by
  have e : applyField m "durlsupport" (Json.num i) =
      if int8Min ≤ i ∧ i ≤ int8Max then some { m with DURLSupport := i } else none := rfl
  rw [e, if_pos ⟨h1, h2⟩]

theorem applyField_privacy (m : Native) (i : Int)
    (h1 : int8Min ≤ i) (h2 : i ≤ int8Max) :
    applyField m "privacy" (Json.num i) = some { m with Privacy := i } := by
  have e : applyField m "privacy" (Json.num i) =
      if int8Min ≤ i ∧ i ≤ int8Max then some { m with Privacy := i } else none := rfl
  rw [e, if_pos ⟨h1, h2⟩]

theorem decSeg_request (m : Native) (s : String) :
    decFields applyField m [("request", Json.str s)] = some { m with Request := s } := rfl

theorem decSeg_ver (m : Native) (s : String) (h : m.Ver = "") :
    decFields applyField m (encStr "ver" s) = some { m with Ver := s } := by
  unfold encStr
  split
  · rename_i hs; subst hs; rw [← h]; rfl
  · rfl

theorem decSeg_api (m : Native) (o : Option (List Int)) (h : m.API = none)
    (ho : o ≠ some []) :
    decFields applyField m (encList "api" Json.num o) = some { m with API := o } := by
  match o with
  | none =>
    show decFields applyField m [] = some { m with API := none }
    rw [← h]; rfl
  | some [] => exact absurd rfl ho
  | some (x :: xs) =>
    show decFields applyField m [("api", Json.arr ((x :: xs).map Json.num))] = _
    simp only [decFields, applyField_api,
      decList_map_of decInt Json.num decInt_num, Option.map_some']

theorem decSeg_battr (m : Native) (o : Option (List Int)) (h : m.BAttr = none)
    (ho : o ≠ some []) :
    decFields applyField m (encList "battr" Json.num o) = some { m with BAttr := o } := by
  match o with
  | none =>
    show decFields applyField m [] = some { m with BAttr := none }
    rw [← h]; rfl
  | some [] => exact absurd rfl ho
  | some (x :: xs) =>
    show decFields applyField m [("battr", Json.arr ((x :: xs).map Json.num))] = _
    simp only [decFields, applyField_battr,
      decList_map_of decInt Json.num decInt_num, Option.map_some']

theorem decSeg_ext (m : Native) (o : Option Json) (h : m.Ext = none) :
    decFields applyField m (encExt "ext" o) = some { m with Ext := o } := by
  match o with
  | none =>
    show decFields applyField m [] = some { m with Ext := none }
    rw [← h]; rfl
  | some v => rfl

theorem decSeg_layout (m : Native) (i : Int) (h : m.Layout = 0) :
    decFields applyField m (encInt "layout" i) = some { m with Layout := i } := by
  unfold encInt
  split
  · rename_i hi; subst hi; rw [← h]; rfl
  · rfl

theorem decSeg_adunit (m : Native) (i : Int) (h : m.AdUnit = 0) :
    decFields applyField m (encInt "adunit" i) = some { m with AdUnit := i } := by
  unfold encInt
  split
  · rename_i hi; subst hi; rw [← h]; rfl
  · rfl

theorem decSeg_context (m : Native) (i : Int) (h : m.Context = 0) :
    decFields applyField m (encInt "context" i) = some { m with Context := i } := by
  unfold encInt
  split
  · rename_i hi; subst hi; rw [← h]; rfl
  · rfl

theorem decSeg_contextsubtype (m : Native) (i : Int) (h : m.ContextSubType = 0) :
    decFields applyField m (encInt "contextsubtype" i) =
      some { m with ContextSubType := i } := by
  unfold encInt
  split
  · rename_i hi; subst hi; rw [← h]; rfl
  · rfl

theorem decSeg_plcmttype (m : Native) (i : Int) (h : m.PlcmtType = 0) :
    decFields applyField m (encInt "plcmttype" i) = some { m with PlcmtType := i } := by
  unfold encInt
  split
  · rename_i hi; subst hi; rw [← h]; rfl
  · rfl

theorem decSeg_plcmtcnt (m : Native) (i : Int) (h : m.PlcmtCnt = 0)
    (h1 : int64Min ≤ i) (h2 : i ≤ int64Max) :
    decFields applyField m (encInt "plcmtcnt" i) = some { m with PlcmtCnt := i } := by
  unfold encInt
  split
  · rename_i hi; subst hi; rw [← h]; rfl
  · simp only [decFields, applyField_plcmtcnt m i h1 h2]

theorem decSeg_seq (m : Native) (i : Int) (h : m.Seq = 0)
    (h1 : int64Min ≤ i) (h2 : i ≤ int64Max) :
    decFields applyField m (encInt "seq" i) = some { m with Seq := i } := by
  unfold encInt
  split
  · rename_i hi; subst hi; rw [← h]; rfl
  · simp only [decFields, applyField_seq m i h1 h2]

theorem decSeg_assets (m : Native) (o : Option (List Asset)) :
    decFields applyField m [("assets", encAssets o)] = some { m with Assets := o } := by
  match o with
  | none => rfl
  | some l =>
    simp only [encAssets, decFields, applyField_assets_arr,
      decList_map_of decodeAsset Asset.enc decodeAsset_enc, Option.map_some']

theorem decSeg_aurlsupport (m : Native) (i : Int) (h : m.AURLSupport = 0)
    (h1 : int8Min ≤ i) (h2 : i ≤ int8Max) :
    decFields applyField m (encInt "aurlsupport" i) =
      some { m with AURLSupport := i } := by
  unfold encInt
  split
  · rename_i hi; subst hi; rw [← h]; rfl
  · simp only [decFields, applyField_aurlsupport m i h1 h2]

theorem decSeg_durlsupport (m : Native) (i : Int) (h : m.DURLSupport = 0)
    (h1 : int8Min ≤ i) (h2 : i ≤ int8Max) :
    decFields applyField m (encInt "durlsupport" i) =
      some { m with DURLSupport := i } := by
  unfold encInt
  split
  · rename_i hi; subst hi; rw [← h]; rfl
  · simp only [decFields, applyField_durlsupport m i h1 h2]

theorem decSeg_eventtrackers (m : Native) (o : Option (List EventTracker))
    (h : m.EventTrackers = none) (ho : o ≠ some []) :
    decFields applyField m (encList "eventtrackers" EventTracker.enc o) =
      some { m with EventTrackers := o } := by
  match o with
  | none =>
    show decFields applyField m [] = some { m with EventTrackers := none }
    rw [← h]; rfl
  | some [] => exact absurd rfl ho
  | some (x :: xs) =>
    show decFields applyField m
      [("eventtrackers", Json.arr ((x :: xs).map EventTracker.enc))] = _
    simp only [decFields, applyField_eventtrackers,
      decList_map_of decodeEventTracker EventTracker.enc decodeEventTracker_enc,
      Option.map_some']

theorem decSeg_privacy (m : Native) (i : Int) (h : m.Privacy = 0)
    (h1 : int8Min ≤ i) (h2 : i ≤ int8Max) :
    decFields applyField m (encInt "privacy" i) = some { m with Privacy := i } := by
  unfold encInt
  split
  · rename_i hi; subst hi; rw [← h]; rfl
  · simp only [decFields, applyField_privacy m i h1 h2]

/-- C1 (amended): encoding a `Native` and decoding the result yields an equal
instance — every field present round-trips and absent fields stay absent —
provided no optional slice field is a set-but-empty slice (`omitempty` drops
those, so they come back nil, the counterexample) and the machine-width
fields hold values their Go types allow (automatic in Go, a side condition
of the `Int` embedding). -/
theorem decode_encodeNative (n : Native)
    (hAPI : n.API ≠ some []) (hBAttr : n.BAttr ≠ some [])
    (hET : n.EventTrackers ≠ some [])
    (hPC1 : int64Min ≤ n.PlcmtCnt) (hPC2 : n.PlcmtCnt ≤ int64Max)
    (hSq1 : int64Min ≤ n.Seq) (hSq2 : n.Seq ≤ int64Max)
    (hA1 : int8Min ≤ n.AURLSupport) (hA2 : n.AURLSupport ≤ int8Max)
    (hD1 : int8Min ≤ n.DURLSupport) (hD2 : n.DURLSupport ≤ int8Max)
    (hP1 : int8Min ≤ n.Privacy) (hP2 : n.Privacy ≤ int8Max) :
    decodeNative (encodeNative n) = some n := by
  obtain ⟨f1, f2, f3, f4, f5, f6, f7, f8, f9, f10, f11, f12, f13, f14, f15, f16, f17⟩ := n
  simp only [encodeNative, decodeNative, Native.zero] at *
  simp only [decFields_append, Option.some_bind, Native.zero,
    decSeg_request, decSeg_ver, decSeg_api, decSeg_battr, decSeg_ext,
    decSeg_layout, decSeg_adunit, decSeg_context, decSeg_contextsubtype,
    decSeg_plcmttype, decSeg_plcmtcnt, decSeg_seq, decSeg_assets,
    decSeg_aurlsupport, decSeg_durlsupport, decSeg_eventtrackers, decSeg_privacy,
    ne_eq, not_false_eq_true,
    hAPI, hBAttr, hET, hPC1, hPC2, hSq1, hSq2, hA1, hA2, hD1, hD2, hP1, hP2]

end OpenRTB

namespace OpenRTB

theorem isSome_ite_some (c : Prop) [Decidable c] (a : α) :
    (if c then some a else none).isSome = decide c := by
  split <;> simp_all

theorem decInt_isSome : ∀ v, (decInt v).isSome = scalarOK v := by
  intro v; cases v <;> rfl

theorem applyAssetField_isSome :
    ∀ (a : Asset) (k : String) (v : Json),
      (applyAssetField a k v).isSome = assetFieldOK k v := by
  intro a k v
  unfold applyAssetField assetFieldOK
  split
  · cases v <;> rfl
  · rfl

theorem decodeAsset_isSome : ∀ j, (decodeAsset j).isSome = assetOK j := by
  intro j
  cases j with
  | obj kvs => exact decFields_isSome _ _ applyAssetField_isSome kvs Asset.zero
  | null => rfl
  | bool b => rfl
  | num i => rfl
  | str s => rfl
  | arr xs => rfl

theorem applyEventTrackerField_isSome :
    ∀ (e : EventTracker) (k : String) (v : Json),
      (applyEventTrackerField e k v).isSome = etFieldOK k v := by
  intro e k v
  unfold applyEventTrackerField etFieldOK
  split
  · cases v <;> rfl
  · rfl

theorem decodeEventTracker_isSome :
    ∀ j, (decodeEventTracker j).isSome = etOK j := by
  intro j
  cases j with
  | obj kvs => exact decFields_isSome _ _ applyEventTrackerField_isSome kvs EventTracker.zero
  | null => rfl
  | bool b => rfl
  | num i => rfl
  | str s => rfl
  | arr xs => rfl

theorem isSome_omap (o : Option α) (f : α → β) : (o.map f).isSome = o.isSome := by
  cases o <;> rfl

theorem decList_isSome_int :
    ∀ xs : List Json, (decList decInt xs).isSome = xs.all scalarOK := by
  intro xs
  rw [decList_isSome]
  exact congrArg xs.all (funext decInt_isSome)

theorem decList_isSome_asset :
    ∀ xs : List Json, (decList decodeAsset xs).isSome = xs.all assetOK := by
  intro xs
  rw [decList_isSome]
  exact congrArg xs.all (funext decodeAsset_isSome)

theorem decList_isSome_et :
    ∀ xs : List Json, (decList decodeEventTracker xs).isSome = xs.all etOK := by
  intro xs
  rw [decList_isSome]
  exact congrArg xs.all (funext decodeEventTracker_isSome)

theorem applyField_isSome :
    ∀ (n : Native) (k : String) (v : Json),
      (applyField n k v).isSome = fieldTypeOK k v := by
  intro n k v
  by_cases h1 : k = "request"
  · subst h1; cases v <;> rfl
  by_cases h2 : k = "ver"
  · subst h2; cases v <;> rfl
  by_cases h3 : k = "api"
  · subst h3
    cases v with
    | arr xs => exact (isSome_omap _ _).trans (decList_isSome_int xs)
    | null => rfl
    | bool b => rfl
    | num i => rfl
    | str s => rfl
    | obj kvs => rfl
  by_cases h4 : k = "battr"
  · subst h4
    cases v with
    | arr xs => exact (isSome_omap _ _).trans (decList_isSome_int xs)
    | null => rfl
    | bool b => rfl
    | num i => rfl
    | str s => rfl
    | obj kvs => rfl
  by_cases h5 : k = "ext"
  · subst h5; cases v <;> rfl
  by_cases h6 : k = "layout"
  · subst h6; cases v <;> rfl
  by_cases h7 : k = "adunit"
  · subst h7; cases v <;> rfl
  by_cases h8 : k = "context"
  · subst h8; cases v <;> rfl
  by_cases h9 : k = "contextsubtype"
  · subst h9; cases v <;> rfl
  by_cases h10 : k = "plcmttype"
  · subst h10; cases v <;> rfl
  by_cases h11 : k = "plcmtcnt"
  · subst h11
    cases v with
    | num i => exact isSome_ite_some _ _
    | null => rfl
    | bool b => rfl
    | str s => rfl
    | arr xs => rfl
    | obj kvs => rfl
  by_cases h12 : k = "seq"
  · subst h12
    cases v with
    | num i => exact isSome_ite_some _ _
    | null => rfl
    | bool b => rfl
    | str s => rfl
    | arr xs => rfl
    | obj kvs => rfl
  by_cases h13 : k = "assets"
  · subst h13
    cases v with
    | arr xs => exact (isSome_omap _ _).trans (decList_isSome_asset xs)
    | null => rfl
    | bool b => rfl
    | num i => rfl
    | str s => rfl
    | obj kvs => rfl
  by_cases h14 : k = "aurlsupport"
  · subst h14
    cases v with
    | num i => exact isSome_ite_some _ _
    | null => rfl
    | bool b => rfl
    | str s => rfl
    | arr xs => rfl
    | obj kvs => rfl
  by_cases h15 : k = "durlsupport"
  · subst h15
    cases v with
    | num i => exact isSome_ite_some _ _
    | null => rfl
    | bool b => rfl
    | str s => rfl
    | arr xs => rfl
    | obj kvs => rfl
  by_cases h16 : k = "eventtrackers"
  · subst h16
    cases v with
    | arr xs => exact (isSome_omap _ _).trans (decList_isSome_et xs)
    | null => rfl
    | bool b => rfl
    | num i => rfl
    | str s => rfl
    | obj kvs => rfl
  by_cases h17 : k = "privacy"
  · subst h17
    cases v with
    | num i => exact isSome_ite_some _ _
    | null => rfl
    | bool b => rfl
    | str s => rfl
    | arr xs => rfl
    | obj kvs => rfl
  have e1 : applyField n k v = some n := by
    unfold applyField
    rw [if_neg h1, if_neg h2, if_neg h3, if_neg h4, if_neg h5, if_neg h6,
      if_neg h7, if_neg h8, if_neg h9, if_neg h10, if_neg h11, if_neg h12,
      if_neg h13, if_neg h14, if_neg h15, if_neg h16, if_neg h17]
  have e2 : fieldTypeOK k v = true := by
    unfold fieldTypeOK
    rw [if_neg h1, if_neg h2, if_neg h3, if_neg h4, if_neg h5, if_neg h6,
      if_neg h7, if_neg h8, if_neg h9, if_neg h10, if_neg h11, if_neg h12,
      if_neg h13, if_neg h14, if_neg h15, if_neg h16, if_neg h17]
  rw [e1, e2]; rfl

/-- A key the struct's tags do not recognise leaves the decoder state
untouched: Go's `json.Unmarshal` ignores unknown object members. -/
theorem applyField_unknown (n : Native) (k : String) (v : Json)
    (h : k ∉ nativeKeys) : applyField n k v = some n := by
  simp only [nativeKeys, List.mem_cons, List.not_mem_nil, or_false, not_or] at h
  obtain ⟨h1, h2, h3, h4, h5, h6, h7, h8, h9, h10, h11, h12, h13, h14, h15, h16, h17⟩ := h
  unfold applyField
  rw [if_neg h1, if_neg h2, if_neg h3, if_neg h4, if_neg h5, if_neg h6,
    if_neg h7, if_neg h8, if_neg h9, if_neg h10, if_neg h11, if_neg h12,
    if_neg h13, if_neg h14, if_neg h15, if_neg h16, if_neg h17]

end OpenRTB

namespace OpenRTB

/-! ### Decoding equations at the concrete keys used by the worked payloads -/

theorem applyField_request_str (m : Native) (s : String) :
    applyField m "request" (Json.str s) = some { m with Request := s } := rfl

theorem applyField_layout_num (m : Native) (i : Int) :
    applyField m "layout" (Json.num i) = some { m with Layout := i } := rfl

theorem applyField_adunit_num (m : Native) (i : Int) :
    applyField m "adunit" (Json.num i) = some { m with AdUnit := i } := rfl

theorem applyField_context_num (m : Native) (i : Int) :
    applyField m "context" (Json.num i) = some { m with Context := i } := rfl

theorem applyField_contextsubtype_num (m : Native) (i : Int) :
    applyField m "contextsubtype" (Json.num i) = some { m with ContextSubType := i } := rfl

theorem applyField_plcmttype_num (m : Native) (i : Int) :
    applyField m "plcmttype" (Json.num i) = some { m with PlcmtType := i } := rfl

theorem applyField_ext_any (m : Native) (v : Json) :
    applyField m "ext" v = some { m with Ext := some v } := rfl

theorem applyField_aurlsupport_zero (m : Native) :
    applyField m "aurlsupport" (Json.num 0) = some { m with AURLSupport := 0 } := rfl

theorem applyField_durlsupport_zero (m : Native) :
    applyField m "durlsupport" (Json.num 0) = some { m with DURLSupport := 0 } := rfl

theorem applyField_privacy_zero (m : Native) :
    applyField m "privacy" (Json.num 0) = some { m with Privacy := 0 } := rfl

theorem applyAssetField_id (a : Asset) (i : Int) :
    applyAssetField a "id" (Json.num i) = some { a with ID := i } := rfl

/-! ### The claims -/

/-- C1 counterexample: an instance whose `API` is a set-but-empty slice does
not survive the round trip — `omitempty` omits a length-0 slice, so the field
comes back nil (`none`), not empty (`some []`). -/
theorem empty_api_slice_not_roundtripped :
    decodeNative (encodeNative { Native.zero with API := some [] }) ≠
      some { Native.zero with API := some [] } := by
  intro h
  exact absurd (congrArg (Option.map Native.API) h) (by decide)

/-- C1 witness: the round-trip theorem at a fully populated instance. -/
theorem decode_encodeNative_witness :
    decodeNative (encodeNative ⟨"r", "1.2", some [1, 2], some [3],
        some (Json.obj [("k", Json.str "v")]), 5, 4, 1, 11, 2, 3, 1,
        some [⟨7⟩], 1, 1, some [⟨2⟩], 1⟩) =
      some ⟨"r", "1.2", some [1, 2], some [3],
        some (Json.obj [("k", Json.str "v")]), 5, 4, 1, 11, 2, 3, 1,
        some [⟨7⟩], 1, 1, some [⟨2⟩], 1⟩ :=
  decode_encodeNative _ (by decide) (by decide) (by decide) (by decide)
    (by decide) (by decide) (by decide) (by decide) (by decide) (by decide)
    (by decide) (by decide) (by decide)

/-- C2: encoding an instance with every optional field at its unset (zero)
value emits exactly the required keys `request` and `assets`, in that order,
and nothing else. -/
theorem encode_unset_optionals_keys (n : Native)
    (h1 : n.Ver = "") (h2 : n.API = none) (h3 : n.BAttr = none) (h4 : n.Ext = none)
    (h5 : n.Layout = 0) (h6 : n.AdUnit = 0) (h7 : n.Context = 0)
    (h8 : n.ContextSubType = 0) (h9 : n.PlcmtType = 0) (h10 : n.PlcmtCnt = 0)
    (h11 : n.Seq = 0) (h12 : n.AURLSupport = 0) (h13 : n.DURLSupport = 0)
    (h14 : n.EventTrackers = none) (h15 : n.Privacy = 0) :
    (encodeNative n).keys = ["request", "assets"] := by
  simp [encodeNative, Json.keys, encStr, encInt, encList, encExt,
    h1, h2, h3, h4, h5, h6, h7, h8, h9, h10, h11, h12, h13, h14, h15]

/-- C2 witness: the omission theorem at an instance with populated required
fields and every optional field unset. -/
theorem encode_unset_optionals_keys_witness :
    (encodeNative ⟨"x", "", none, none, none, 0, 0, 0, 0, 0, 0, 0,
        some [⟨2⟩], 0, 0, none, 0⟩).keys = ["request", "assets"] :=
  encode_unset_optionals_keys _ rfl rfl rfl rfl rfl rfl rfl rfl rfl rfl rfl
    rfl rfl rfl rfl

/-- C3 counterexample: the well-formed payload `{}` is missing both required
fields (`request`, `assets`), yet decoding succeeds (yielding the zero
instance) — the deserializer does not fail on a missing required field. -/
theorem decode_missing_required_succeeds :
    decodeNative (Json.obj []) = some Native.zero ∧
      (decodeNative (Json.obj [])).isSome = true :=
  ⟨rfl, rfl⟩

/-- C3 (amended): decoding fails exactly when the payload is structurally
ill-typed — a non-object/non-null top level, or some present member whose
value mismatches its field's type (including machine-width overflow).  A
missing required field never causes failure; the field is left at its zero
value. -/
theorem decodeNative_failure_characterization :
    (∀ kvs, (decodeNative (Json.obj kvs)).isSome =
        kvs.all fun p => fieldTypeOK p.1 p.2) ∧
      decodeNative Json.null = some Native.zero ∧
      (∀ b, decodeNative (Json.bool b) = none) ∧
      (∀ i, decodeNative (Json.num i) = none) ∧
      (∀ s, decodeNative (Json.str s) = none) ∧
      (∀ xs, decodeNative (Json.arr xs) = none) :=
  ⟨fun kvs => decFields_isSome applyField fieldTypeOK applyField_isSome kvs Native.zero,
    rfl, fun _ => rfl, fun _ => rfl, fun _ => rfl, fun _ => rfl⟩

/-- C4 counterexample: the value 0 — outside the documented named constants,
which the spec's open enumerations reserve strictly above zero, zero meaning
"unset" — decodes into `layout` successfully, but a subsequent re-encode
omits the `layout` key entirely instead of emitting the integer verbatim. -/
theorem decode_reencode_zero_enum_omitted :
    ∃ n, decodeNative (Json.obj [("request", Json.str ""), ("assets", Json.arr []),
        ("layout", Json.num 0)]) = some n ∧
      n.Layout = 0 ∧ (encodeNative n).objGet "layout" = none ∧
      "layout" ∉ (encodeNative n).keys := by
  refine ⟨{ Native.zero with Assets := some [] }, rfl, rfl, rfl, ?_⟩
  decide

/-- C4 (amended): every nonzero integer — in particular every value outside
the documented named constants, all of which are nonzero — decodes into the
enumerated fields (`api`/`battr` elements, `layout`, `adunit`, `context`,
`contextsubtype`, `plcmttype`) without rejection, and the re-encoded object
carries each of those keys with that exact integer verbatim.  The value 0
also decodes, but `omitempty` then omits the scalar keys (the
counterexample). -/
theorem unknown_enum_values_roundtrip (v : Int) (hv : v ≠ 0) :
    ∃ n, decodeNative (Json.obj [("request", Json.str ""), ("assets", Json.arr []),
        ("api", Json.arr [Json.num v]), ("battr", Json.arr [Json.num v]),
        ("layout", Json.num v), ("adunit", Json.num v), ("context", Json.num v),
        ("contextsubtype", Json.num v), ("plcmttype", Json.num v)]) = some n ∧
      n.API = some [v] ∧ n.BAttr = some [v] ∧ n.Layout = v ∧ n.AdUnit = v ∧
      n.Context = v ∧ n.ContextSubType = v ∧ n.PlcmtType = v ∧
      encodeNative n =
        Json.obj [("request", Json.str ""), ("api", Json.arr [Json.num v]),
          ("battr", Json.arr [Json.num v]), ("layout", Json.num v),
          ("adunit", Json.num v), ("context", Json.num v),
          ("contextsubtype", Json.num v), ("plcmttype", Json.num v),
          ("assets", Json.arr [])] := by
  refine ⟨⟨"", "", some [v], some [v], none, v, v, v, v, v, 0, 0, some [], 0, 0, none, 0⟩,
    ?_, rfl, rfl, rfl, rfl, rfl, rfl, rfl, ?_⟩
  · simp only [decodeNative, decFields, applyField_request_str, applyField_api,
      applyField_battr, applyField_layout_num, applyField_adunit_num,
      applyField_context_num, applyField_contextsubtype_num,
      applyField_plcmttype_num, applyField_assets_arr, decList, decInt,
      Option.map_some', Native.zero]
  · simp only [encodeNative, encStr, encInt, encList, encExt, encAssets,
      List.map_cons, List.map_nil]
    simp [hv]

/-- C4 witness: the open-enumeration theorem at the undocumented value 99. -/
theorem unknown_enum_values_roundtrip_witness :
    ∃ n, decodeNative (Json.obj [("request", Json.str ""), ("assets", Json.arr []),
        ("api", Json.arr [Json.num 99]), ("battr", Json.arr [Json.num 99]),
        ("layout", Json.num 99), ("adunit", Json.num 99), ("context", Json.num 99),
        ("contextsubtype", Json.num 99), ("plcmttype", Json.num 99)]) = some n ∧
      n.API = some [99] ∧ n.BAttr = some [99] ∧ n.Layout = 99 ∧ n.AdUnit = 99 ∧
      n.Context = 99 ∧ n.ContextSubType = 99 ∧ n.PlcmtType = 99 ∧
      encodeNative n =
        Json.obj [("request", Json.str ""), ("api", Json.arr [Json.num 99]),
          ("battr", Json.arr [Json.num 99]), ("layout", Json.num 99),
          ("adunit", Json.num 99), ("context", Json.num 99),
          ("contextsubtype", Json.num 99), ("plcmttype", Json.num 99),
          ("assets", Json.arr [])] :=
  unknown_enum_values_roundtrip 99 (by decide)

/-- C5: an instance whose `PlcmtCnt` is zero encodes without the `plcmtcnt`
key. -/
theorem plcmtcnt_zero_key_omitted (n : Native) (h : n.PlcmtCnt = 0) :
    "plcmtcnt" ∉ (encodeNative n).keys := by
  intro hmem
  simp only [encodeNative, Json.keys, List.map_append, List.mem_append,
    mem_keys_encStr, mem_keys_encInt, mem_keys_encList, mem_keys_encExt,
    List.map_cons, List.map_nil, List.mem_cons, List.not_mem_nil, h] at hmem
  simp at hmem

/-- C5 witness: the omission theorem at the zero instance. -/
theorem plcmtcnt_zero_key_omitted_witness :
    "plcmtcnt" ∉ (encodeNative Native.zero).keys :=
  plcmtcnt_zero_key_omitted Native.zero rfl

/-- C6: an unrecognised key anywhere in the payload is ignored — decoding
neither fails because of it nor decodes any known field differently. -/
theorem decode_ignores_unknown_key (k : String) (v : Json)
    (l₁ l₂ : List (String × Json)) (h : k ∉ nativeKeys) :
    decodeNative (Json.obj (l₁ ++ (k, v) :: l₂)) =
      decodeNative (Json.obj (l₁ ++ l₂)) := by
  show decFields applyField Native.zero _ = decFields applyField Native.zero _
  exact decFields_skip applyField k v (fun s => applyField_unknown s k v h) l₁ l₂
    Native.zero

/-- C6 witness: inserting the unknown key `custom` changes nothing. -/
theorem decode_ignores_unknown_key_witness :
    decodeNative (Json.obj ([("request", Json.str "a")] ++ ("custom", Json.num 7) :: [])) =
      decodeNative (Json.obj ([("request", Json.str "a")] ++ [])) :=
  decode_ignores_unknown_key "custom" (Json.num 7) [("request", Json.str "a")] []
    (by decide)

/-- C7: the `ext` payload is opaque — any structured value under the `ext`
key decodes verbatim into the instance, and the re-encoded object carries
that exact value verbatim under `ext`. -/
theorem ext_passthrough (v : Json) (r : String) :
    ∃ n, decodeNative (Json.obj [("request", Json.str r), ("assets", Json.arr []),
        ("ext", v)]) = some n ∧ n.Ext = some v ∧
      encodeNative n = Json.obj [("request", Json.str r), ("ext", v),
        ("assets", Json.arr [])] := by
  refine ⟨⟨r, "", none, none, some v, 0, 0, 0, 0, 0, 0, 0, some [], 0, 0, none, 0⟩,
    ?_, rfl, ?_⟩
  · simp only [decodeNative, decFields, applyField_request_str,
      applyField_assets_arr, applyField_ext_any, decList, Option.map_some',
      Native.zero]
  · simp only [encodeNative, encStr, encInt, encList, encExt, encAssets,
      List.map_nil]
    simp

/-- C8: a 0/1 support flag (`aurlsupport`, `durlsupport`, `privacy`) present
with value 0 decodes to the same instance as the payload without the key, and
an instance with the flag 0 encodes without emitting the key. -/
theorem zero_flags_indistinguishable :
    (∀ r : String,
      decodeNative (Json.obj [("request", Json.str r), ("assets", Json.arr []),
        ("aurlsupport", Json.num 0), ("durlsupport", Json.num 0),
        ("privacy", Json.num 0)]) =
      decodeNative (Json.obj [("request", Json.str r), ("assets", Json.arr [])])) ∧
    (∀ n : Native, n.AURLSupport = 0 → "aurlsupport" ∉ (encodeNative n).keys) ∧
    (∀ n : Native, n.DURLSupport = 0 → "durlsupport" ∉ (encodeNative n).keys) ∧
    (∀ n : Native, n.Privacy = 0 → "privacy" ∉ (encodeNative n).keys) := by
  refine ⟨fun r => ?_, fun n h => ?_, fun n h => ?_, fun n h => ?_⟩
  · simp only [decodeNative, decFields, applyField_request_str,
      applyField_assets_arr, applyField_aurlsupport_zero,
      applyField_durlsupport_zero, applyField_privacy_zero, decList,
      Option.map_some', Native.zero]
  all_goals intro hmem
  all_goals simp only [encodeNative, Json.keys, List.map_append, List.mem_append,
    mem_keys_encStr, mem_keys_encInt, mem_keys_encList, mem_keys_encExt,
    List.map_cons, List.map_nil, List.mem_cons, List.not_mem_nil, h] at hmem
  all_goals simp at hmem

/-- C8 witness: the flag-omission clause at the zero instance. -/
theorem zero_flags_indistinguishable_witness :
    "aurlsupport" ∉ (encodeNative Native.zero).keys :=
  zero_flags_indistinguishable.2.1 Native.zero rfl

/-- C9: the spec's worked example — decoding the example payload yields the
embedded request string and one asset, and re-encoding emits exactly the two
required keys. -/
theorem example_payload_roundtrip :
    ∃ n, decodeNative (Json.obj [("request", Json.str "\x7b...\x7d"),
        ("assets", Json.arr [Json.obj [("id", Json.num 1)]])]) = some n ∧
      n.Request = "\x7b...\x7d" ∧ (∃ l, n.Assets = some l ∧ l.length = 1) ∧
      (encodeNative n).keys = ["request", "assets"] := by
  refine ⟨⟨"\x7b...\x7d", "", none, none, none, 0, 0, 0, 0, 0, 0, 0,
    some [⟨1⟩], 0, 0, none, 0⟩, ?_, rfl, ⟨[⟨1⟩], rfl, rfl⟩, ?_⟩
  · simp only [decodeNative, decFields, applyField_request_str,
      applyField_assets_arr, decList, decodeAsset, applyAssetField_id,
      Option.map_some', Native.zero, Asset.zero]
  · simp only [encodeNative, encStr, encInt, encList, encExt, encAssets,
      Json.keys, List.map_cons, List.map_nil]
    simp

/-- C10: the required keys carry no omit-when-empty option, so a completely
zero-valued instance still emits `request` (as the empty string) and `assets`
(as `null`, Go's encoding of a nil slice). -/
theorem encode_zero_emits_required_keys :
    encodeNative Native.zero =
      Json.obj [("request", Json.str ""), ("assets", Json.null)] := rfl

end OpenRTB
